import Mathlib

/-!
Verification of the schema marker subsystem and validation utilities of the
py-good repository, via a shallow embedding of the Python sources
(good/schema/markers.py, good/schema/util.py) into Lean. Parts of the
repository that sit outside the provided sources (the error classes and the
mapping validation engine) are modelled from the specification and are marked
as such on their definitions.
-/

/-- Runtime type tags for the modelled Python values. tInstance represents an
instance of a user-defined class (identified by a class id), tObject an
instance whose exact type is object. -/
inductive PyType where
  | tNone | tBool | tInt | tFloat | tComplex | tStr | tBytes
  | tList | tTuple | tSet | tFrozenSet | tDict
  | tType | tFunction
  | tObject
  | tInstance (cls : Nat)
  deriving DecidableEq, Repr

/-- Shallow embedding of Python values, covering the categories the schema
library dispatches on. Floats and complex numbers are opaque (identified by an
id, no arithmetic is modelled); callables are opaque function ids. -/
inductive Py where
  | vnone
  | vbool (b : Bool)
  | vint (n : Int)
  | vfloat (id : Nat)
  | vcomplex (id : Nat)
  | vstr (s : String)
  | vbytes (s : String)
  | vlist (xs : List Py)
  | vtuple (xs : List Py)
  | vset (xs : List Py)
  | vfrozenset (xs : List Py)
  | vdict (xs : List (Py × Py))
  | vtype (t : PyType)
  | vcallable (id : Nat)
  | vobject
  | vinstance (cls : Nat)

mutual

/-- Structural equality on the embedded Python values. -/
def pyBeq : Py → Py → Bool
  | .vnone, .vnone => true
  | .vbool a, .vbool b => a == b
  | .vint a, .vint b => a == b
  | .vfloat a, .vfloat b => a == b
  | .vcomplex a, .vcomplex b => a == b
  | .vstr a, .vstr b => a == b
  | .vbytes a, .vbytes b => a == b
  | .vlist a, .vlist b => pyBeqList a b
  | .vtuple a, .vtuple b => pyBeqList a b
  | .vset a, .vset b => pyBeqList a b
  | .vfrozenset a, .vfrozenset b => pyBeqList a b
  | .vdict a, .vdict b => pyBeqPairs a b
  | .vtype a, .vtype b => a == b
  | .vcallable a, .vcallable b => a == b
  | .vobject, .vobject => true
  | .vinstance a, .vinstance b => a == b
  | _, _ => false

/-- Elementwise structural equality of value lists. -/
def pyBeqList : List Py → List Py → Bool
  | [], [] => true
  | a :: as, b :: bs => pyBeq a b && pyBeqList as bs
  | _, _ => false

/-- Elementwise structural equality of key-value pair lists. -/
def pyBeqPairs : List (Py × Py) → List (Py × Py) → Bool
  | [], [] => true
  | (k, v) :: as, (k2, v2) :: bs => pyBeq k k2 && pyBeq v v2 && pyBeqPairs as bs
  | _, _ => false

end

/-- The Python type of a value: type(v). -/
def typeOf : Py → PyType
  | .vnone => .tNone
  | .vbool _ => .tBool
  | .vint _ => .tInt
  | .vfloat _ => .tFloat
  | .vcomplex _ => .tComplex
  | .vstr _ => .tStr
  | .vbytes _ => .tBytes
  | .vlist _ => .tList
  | .vtuple _ => .tTuple
  | .vset _ => .tSet
  | .vfrozenset _ => .tFrozenSet
  | .vdict _ => .tDict
  | .vtype _ => .tType
  | .vcallable _ => .tFunction
  | .vobject => .tObject
  | .vinstance cls => .tInstance cls

/-- const.literal_types from util.py:
six.integer_types + (text, binary) + (bool, float, complex, object, NoneType). -/
def literal_types : List PyType :=
  [.tInt, .tStr, .tBytes, .tBool, .tFloat, .tComplex, .tObject, .tNone]

/-- const.COMPILED_TYPE from util.py. -/
inductive COMPILED_TYPE where
  | LITERAL | TYPE | SCHEMA | CALLABLE | ITERABLE | MAPPING | MARKER
  deriving DecidableEq, Repr

/-- const.compiled_type_priorities from util.py: priorities for compiled types,
used for mappings to determine the sequence with which keys are processed.
Markers have their own priorities, hence none. -/
def compiled_type_priorities : COMPILED_TYPE → Option Int
  | .LITERAL => some 100
  | .TYPE => some 50
  | .SCHEMA => some 0
  | .CALLABLE => some 0
  | .ITERABLE => some 0
  | .MAPPING => some 0
  | .MARKER => none

/-- Python: issubclass(type(v), six.class_types), i.e. v is itself a class. -/
def isClass : Py → Bool
  | .vtype _ => true
  | _ => false

/-- Python: isinstance(v, collections.Mapping). -/
def isMappingInst : Py → Bool
  | .vdict _ => true
  | _ => false

/-- Python: isinstance(v, collections.Iterable). Strings, bytes and dicts are
iterable in Python. -/
def isIterableInst : Py → Bool
  | .vstr _ => true
  | .vbytes _ => true
  | .vlist _ => true
  | .vtuple _ => true
  | .vset _ => true
  | .vfrozenset _ => true
  | .vdict _ => true
  | _ => false

/-- Python: callable(v). Classes are callable. -/
def isCallableVal : Py → Bool
  | .vcallable _ => true
  | .vtype _ => true
  | _ => false

/-- primitive_type from util.py: get the schema type for a primitive argument,
by the ordered chain of checks literal, type, mapping, iterable, callable. -/
def primitive_type (schema : Py) : Option COMPILED_TYPE :=
  if typeOf schema ∈ literal_types then some .LITERAL
  else if isClass schema then some .TYPE
  else if isMappingInst schema then some .MAPPING
  else if isIterableInst schema then some .ITERABLE
  else if isCallableVal schema then some .CALLABLE
  else none

/-- get_type_name from util.py: the human-friendly names registered for types,
with the integer fallback branch. -/
def typeName : PyType → String
  | .tNone => "None"
  | .tBool => "Boolean"
  | .tFloat => "Fractional number"
  | .tComplex => "Complex number"
  | .tStr => "String"
  | .tBytes => "Binary String"
  | .tTuple => "Tuple"
  | .tList => "List"
  | .tSet => "Set"
  | .tFrozenSet => "Frozen Set"
  | .tDict => "Dictionary"
  | .tInt => "Integer number"
  | .tType => "Type"
  | .tFunction => "Function"
  | .tObject => "Object"
  | .tInstance cls => String.append "Instance" (toString cls)

/-- Modelling of Python text rendering six.text_type(v), used by Reject for
the provided field of its errors. Only a faithful-enough rendering is needed:
the claims require the provided field to be the textual form of the value. -/
def pyStr : Py → String
  | .vnone => "None"
  | .vbool true => "True"
  | .vbool false => "False"
  | .vint n => toString n
  | .vfloat id => String.append "float#" (toString id)
  | .vcomplex id => String.append "complex#" (toString id)
  | .vstr s => s
  | .vbytes s => s
  | .vlist _ => "[...]"
  | .vtuple _ => "(...)"
  | .vset _ => "set(...)"
  | .vfrozenset _ => "frozenset(...)"
  | .vdict _ => "dict(...)"
  | .vtype t => typeName t
  | .vcallable id => String.append "callable#" (toString id)
  | .vobject => "object"
  | .vinstance cls => String.append "instance#" (toString cls)

/-- Modelling of the Python equality operator on the embedded values. Python
equates booleans with their numeric values (True == 1); every other case is
structural. Cross-type numeric equality with opaque floats is not modelled. -/
def pyEq (a b : Py) : Bool :=
  match a, b with
  | .vbool x, .vint n => (if x then (1 : Int) else 0) == n
  | .vint n, .vbool x => n == (if x then (1 : Int) else 0)
  | x, y => pyBeq x y

/-- Modelling of the Python hash builtin on the embedded values, consistent
with pyEq on hashable values (hash(True) == hash(1) == 1). -/
def pyHash : Py → Nat
  | .vnone => 0
  | .vbool b => if b then 1 else 0
  | .vint n => n.natAbs * 2 + (if n < 0 then 1 else 0)
  | .vfloat id => id + 1000
  | .vcomplex id => id + 2000
  | .vstr s => s.length * 7 + 3000
  | .vbytes s => s.length * 7 + 4000
  | .vtype _ => 5000
  | .vcallable id => id + 6000
  | .vobject => 7000
  | .vinstance cls => cls + 8000
  | _ => 9000

/-- Python hashability: containers (list, tuple with unhashable members aside,
set, dict) are modelled as unhashable; tuples are conservatively treated as
unhashable so that hashable values are exactly the scalar ones. -/
def pyHashable : Py → Bool
  | .vlist _ => false
  | .vtuple _ => false
  | .vset _ => false
  | .vfrozenset _ => false
  | .vdict _ => false
  | _ => true

/-- A single validation failure, as constructed in markers.py:
Invalid(message, expected, provided, path). -/
structure Invalid where
  message : String
  expected : Option String
  provided : Option String
  path : List Py

/-- A raised validation error: either a single Invalid, a MultipleInvalid
carrying a list of errors, or a non-validation Python exception (KeyError,
AttributeError) escaping as a crash. -/
inductive VErr where
  | single (e : Invalid)
  | multiple (es : List Invalid)
  | crash (msg : String)

/-- Modelled from the spec: MultipleInvalid.if_multiple from the error module
(not under src). A one-element collection collapses to its single member;
otherwise the errors are wrapped in a MultipleInvalid. -/
def ifMultiple : List Invalid → VErr
  | [e] => .single e
  | es => .multiple es

/-- The marker variants of markers.py. -/
inductive MarkerKind where
  | required | optional | remove | reject | allow | extra
  deriving DecidableEq, Repr

mutual

/-- A compiled schema as seen by markers: its compiled attribute is either a
Marker (as in the value of an Extra key) or some other schema value. -/
inductive Compiled where
  | cmarker : Marker → Compiled
  | cschema : Py → Compiled

/-- The Marker class of markers.py: the variant, the original key, and the
informational fields name, key_schema and value_schema filled by on_compiled
(all initially None). -/
inductive Marker where
  | mk : MarkerKind → Py → Option String → Option Compiled → Option Compiled → Marker

end

/-- The variant of a marker. -/
def Marker.kind : Marker → MarkerKind
  | .mk k _ _ _ _ => k

/-- The original key the marker wraps. -/
def Marker.key : Marker → Py
  | .mk _ k _ _ _ => k

/-- The human-readable marker name, None until compilation. -/
def Marker.name : Marker → Option String
  | .mk _ _ n _ _ => n

/-- The compiled key schema, None until compilation. -/
def Marker.key_schema : Marker → Option Compiled
  | .mk _ _ _ ks _ => ks

/-- The compiled value schema, None until compilation. -/
def Marker.value_schema : Marker → Option Compiled
  | .mk _ _ _ _ vs => vs

/-- Marker priorities from markers.py: Marker.priority is 0, overridden to
1000 by Remove (keys are removed prior to any other action) and to -1000 by
Extra (Extra should match last). -/
def markerPriority : MarkerKind → Int
  | .remove => 1000
  | .extra => -1000
  | _ => 0

/-- Marker.on_compiled from markers.py: each informational field is assigned
only if it is still None, and the marker itself is returned. -/
def Marker.on_compiled (m : Marker) (name : Option String)
    (key_schema value_schema : Option Compiled) : Marker :=
  match m with
  | .mk kind key n0 ks0 vs0 =>
      .mk kind key (n0 <|> name) (ks0 <|> key_schema) (vs0 <|> value_schema)

/-- A value appearing on the other side of a Marker comparison: either a plain
value or another marker. -/
inductive PyTop where
  | base : Py → PyTop
  | marker : Marker → PyTop

/-- Marker equality from markers.py: self.key == (other.key if other is a
Marker else other). -/
def markerEq (self : Marker) (other : PyTop) : Bool :=
  pyEq self.key (match other with | .marker m => m.key | .base v => v)

/-- Marker hashing from markers.py: hash(self.key). -/
def markerHash (m : Marker) : Nat :=
  pyHash m.key

/-- Python equality between possibly-marker values: a marker on the left uses
Marker comparison; a plain value compared to a marker reflects into the marker
comparison (the plain type returns NotImplemented); two plain values compare
with Python equality. -/
def pyTopEq : PyTop → PyTop → Bool
  | .marker m, other => markerEq m other
  | .base v, .marker m => markerEq m (.base v)
  | .base v, .base w => pyEq v w

/-- An input mapping, modelled as an insertion-ordered association list. -/
abbrev PyDict := List (Py × Py)

/-- Python dictionary lookup: the first entry whose stored key compares equal
to the query key (the stored key is the left operand, as in CPython). -/
def dictGet (d : PyDict) (query : PyTop) : Option Py :=
  (d.find? (fun p => pyTopEq (.base p.1) query)).map (fun p => p.2)

/-- A match triple (input-key, sanitized-input-key, input-value) as passed to
Marker.execute. -/
abbrev Match := Py × Py × Py

/-- Python del d[k]: removes the entry stored under k, raising KeyError when
the key is absent. -/
def delKey (d : PyDict) (k : Py) : Except VErr PyDict :=
  if d.any (fun p => pyEq p.1 k) then
    .ok (d.filter (fun p => !(pyEq p.1 k)))
  else
    .error (.crash "KeyError")

/-- The deletion loop of Remove.execute: del input[k] for every matched
original key, in order. -/
def removeKeys (d : PyDict) : List Match → Except VErr PyDict
  | [] => .ok d
  | (k, _, _) :: rest => do
      let d2 ← delKey d k
      removeKeys d2 rest

/-- Marker.execute from markers.py, dispatching on the variant: the base
marker, Optional and Allow pass the matches through; Required raises when
matches is empty; Remove deletes every matched key from the live input and
returns the matches; Reject raises one error per match, aggregated; Extra
delegates to its compiled value schema when that is itself a marker and
otherwise passes through (a missing value schema is a Python attribute
error). The live input is threaded explicitly to model mutation. -/
def Marker.execute : Marker → PyDict → List Match → Except VErr (PyDict × List Match)
  | .mk .required key name _ _, input, ms =>
      if ms.isEmpty then
        .error (.single ⟨"Required key not provided", name, none, [key]⟩)
      else
        .ok (input, ms)
  | .mk .optional _ _ _ _, input, ms => .ok (input, ms)
  | .mk .allow _ _ _ _, input, ms => .ok (input, ms)
  | .mk .remove _ _ _ _, input, ms => do
      let d2 ← removeKeys input ms
      .ok (d2, ms)
  | .mk .reject _ _ _ _, input, ms =>
      if ms.isEmpty then
        .ok (input, ms)
      else
        .error (ifMultiple (ms.map
          (fun t => ⟨"Value rejected", none, some (pyStr t.2.2), [t.1]⟩)))
  | .mk .extra _ _ _ (some (.cmarker inner)), input, ms =>
      inner.execute input ms
  | .mk .extra _ _ _ (some (.cschema _)), input, ms => .ok (input, ms)
  | .mk .extra _ _ _ none, _, _ => .error (.crash "AttributeError")

/-- Modelled from the spec: the literal matcher of the compiler (the compiler
module is not under src). A type mismatch gives a wrong-value-type error with
the two type names; same type but unequal value gives an invalid-value error
with the literal renderings; otherwise the input is returned. -/
def validateLiteral (schemaV input : Py) : Except VErr Py :=
  if typeOf input == typeOf schemaV then
    if pyEq schemaV input then
      .ok input
    else
      .error (.single ⟨"Invalid value", some (pyStr schemaV), some (pyStr input), []⟩)
  else
    .error (.single ⟨"Wrong value type", some (typeName (typeOf schemaV)),
      some (typeName (typeOf input)), []⟩)

/-- Python isinstance check restricted to the modelled subtype relation: the
only non-trivial subtyping is that bool is a subclass of int. -/
def isInstanceOf (v : Py) (t : PyType) : Bool :=
  typeOf v == t || (typeOf v == .tBool && t == .tInt)

/-- Modelled from the spec: the type matcher of the compiler (the compiler
module is not under src). Instance check with the explicit exclusion that a
boolean-typed input never satisfies a numeric type schema even though bool is
a subclass of int; the reverse exclusion needs no explicit rule because no
numeric type is a subclass of bool. -/
def validateType (t : PyType) (input : Py) : Except VErr Py :=
  if isInstanceOf input t && !(typeOf input == .tBool && !(t == .tBool)) then
    .ok input
  else
    .error (.single ⟨"Wrong type", some (typeName t), some (typeName (typeOf input)), []⟩)

/-- The key-schema category priority of a marker: compiled_type_priorities of
the primitive type of its raw key, the callable/other category defaulting
to 0. -/
def markerKeyCatPriority (m : Marker) : Int :=
  ((primitive_type m.key).bind compiled_type_priorities).getD 0

/-- Modelled from the spec: the marker ordering of the mapping validation
engine (not under src): descending marker priority, ties broken by descending
key-schema category priority. -/
def markerGE (a b : Marker) : Prop :=
  markerPriority a.kind > markerPriority b.kind ∨
    (markerPriority a.kind = markerPriority b.kind ∧
      markerKeyCatPriority a ≥ markerKeyCatPriority b)

instance : DecidableRel markerGE := fun a b => by
  unfold markerGE; infer_instance

instance : IsTotal Marker markerGE :=
  ⟨fun a b => by unfold markerGE; omega⟩

instance : IsTrans Marker markerGE :=
  ⟨fun a b c ha hb => by unfold markerGE at *; omega⟩

/-- Modelled from the spec: the sorting of a mapping node's markers before
they are processed (engine not under src). -/
def sortMarkers (ms : List Marker) : List Marker :=
  List.insertionSort markerGE ms

/-- Modelled from the spec: the key test of the mapping validation engine
(not under src). A literal key schema matches an input key via the literal
matcher and a type key schema via the type matcher, yielding the sanitized
key; other key-schema kinds are not modelled. -/
def keyMatch (mkey k : Py) : Option Py :=
  match primitive_type mkey with
  | some .LITERAL =>
      match validateLiteral mkey k with
      | .ok sk => some sk
      | .error _ => none
  | some .TYPE =>
      match mkey with
      | .vtype t =>
          match validateType t k with
          | .ok sk => some sk
          | .error _ => none
      | _ => none
  | _ => none

/-- Modelled from the spec: steps 3 and 4 of the mapping validation engine
(not under src). Markers are processed in sorted order; each computes its
matches from the live input (the extra marker picks up the keys unclaimed by
earlier markers), then executes, possibly deleting keys from the live input;
raised failures are collected rather than thrown, while crashes abort. -/
def markersPass : List Marker → PyDict → List Py → List (Marker × List Match) →
    List Invalid → Except VErr (PyDict × List (Marker × List Match) × List Invalid × List Py)
  | [], live, claimed, recd, errs => .ok (live, recd, errs, claimed)
  | m :: rest, live, claimed, recd, errs =>
      let ms := if m.kind == .extra then
          live.filterMap (fun p =>
            if claimed.any (fun c => pyEq c p.1) then none else some (p.1, p.1, p.2))
        else
          live.filterMap (fun p => (keyMatch m.key p.1).map (fun sk => (p.1, sk, p.2)))
      let claimed2 := claimed ++ ms.map (fun t => t.1)
      match m.execute live ms with
      | .ok (live2, ms2) => markersPass rest live2 claimed2 (recd ++ [(m, ms2)]) errs
      | .error (.single e) => markersPass rest live claimed2 (recd ++ [(m, ms)]) (errs ++ [e])
      | .error (.multiple es) => markersPass rest live claimed2 (recd ++ [(m, ms)]) (errs ++ es)
      | .error (.crash s) => .error (.crash s)

/-- Modelled from the spec: per-value validation used in step 6 of the engine
(not under src), dispatching on the compiled value schema; value-schema kinds
other than literal and type are not modelled and pass through. -/
def validateValueSchema : Option Compiled → Py → Except VErr Py
  | some (.cschema s), v =>
      match primitive_type s with
      | some .LITERAL => validateLiteral s v
      | some .TYPE =>
          match s with
          | .vtype t => validateType t v
          | _ => .ok v
      | _ => .ok v
  | _, v => .ok v

/-- Modelled from the spec: step 6 of the mapping validation engine (not
under src). Every matched pair still present in the live input is validated
against its marker's value schema; any failure gets the original key
prepended to its path; sanitized pairs use the sanitized key. -/
def valuePass : List (Marker × List Match) → PyDict → List (Py × Py) × List Invalid
  | [], _ => ([], [])
  | (m, ms) :: rest, live =>
      let tail := valuePass rest live
      let here := ms.filter (fun t => live.any (fun p => pyEq p.1 t.1))
      let hereRes := here.map (fun t =>
        match validateValueSchema m.value_schema t.2.2 with
        | .ok v2 => Sum.inl ((t.2.1, v2))
        | .error (.single e) =>
            Sum.inr [(⟨e.message, e.expected, e.provided, t.1 :: e.path⟩ : Invalid)]
        | .error (.multiple es) =>
            Sum.inr (es.map (fun (e : Invalid) => (⟨e.message, e.expected, e.provided, t.1 :: e.path⟩ : Invalid)))
        | .error (.crash _) => Sum.inr [])
      (hereRes.filterMap (fun r => match r with | .inl p => some p | .inr _ => none) ++ tail.1,
       (hereRes.map (fun r => match r with | .inl _ => [] | .inr es => es)).flatten ++ tail.2)

/-- Modelled from the spec: the mapping validation engine (not under src)
with the default reject policy for extra keys. The node's markers are sorted
and processed, leftover unclaimed keys each yield an extra-keys error, the
matched values are validated with the key on the error path, and the
collected failures are raised through ifMultiple: a lone failure surfaces as
a single Invalid, several as a MultipleInvalid. -/
def validateMapping (markers : List Marker) (input : PyDict) : Except VErr PyDict := do
  let (live, recd, errs1, claimed) ← markersPass (sortMarkers markers) input [] [] []
  let leftover := live.filter (fun p => !(claimed.any (fun c => pyEq c p.1)))
  let errsExtra := leftover.map
    (fun p => (⟨"Extra keys not allowed", none, some (pyStr p.1), [p.1]⟩ : Invalid))
  let vres := valuePass recd live
  let errs := errs1 ++ errsExtra ++ vres.2
  if errs.isEmpty then .ok vres.1 else .error (ifMultiple errs)

set_option maxHeartbeats 800000 in
/-- Symmetry of the modelled Python equality when the left operand is
hashable (and hence a scalar). -/
theorem pyEq_symm_of_hashable (a b : Py) (h : pyHashable a = true) :
    pyEq a b = pyEq b a := by
  cases a <;> cases b <;>
    first
    | rfl
    | (simp only [pyEq, pyBeq]; exact Bool.beq_comm)
    | simp [pyHashable] at h

/-- Pointwise-equal predicates find the same first entry. -/
theorem find?_pred_congr {α : Type} (p q : α → Bool) (h : ∀ a, p a = q a) :
    ∀ d : List α, d.find? p = d.find? q := by
  intro d
  induction d with
  | nil => rfl
  | cons a t ih =>
      simp only [List.find?]
      rw [h a]
      cases q a <;> simp [ih]

/-- C2: for every input mapping and match list, Required.execute raises a
single Invalid with message Required key not provided, the marker name as the
expected value and the wrapped key as the error path exactly when the match
list is empty, and returns the matches unchanged when it is non-empty. -/
theorem C2_required_execute (key : Py) (n : Option String) (ks vs : Option Compiled)
    (input : PyDict) (ms : List Match) :
    (ms = [] →
      (Marker.mk .required key n ks vs).execute input ms =
        .error (.single ⟨"Required key not provided", n, none, [key]⟩)) ∧
    (ms ≠ [] →
      (Marker.mk .required key n ks vs).execute input ms = .ok (input, ms)) := by
  constructor
  · intro h
    subst h
    rfl
  · intro h
    cases ms with
    | nil => exact absurd rfl h
    | cons a t => simp [Marker.execute]

/-- C2 witness at concrete inputs: the empty match list raises, a singleton
match list passes through. -/
theorem C2_required_execute_witness :
    (Marker.mk .required (.vstr "a") (some "a") none none).execute [] [] =
      .error (.single ⟨"Required key not provided", some "a", none, [.vstr "a"]⟩) ∧
    (Marker.mk .required (.vstr "a") (some "a") none none).execute []
        [(.vstr "a", .vstr "a", .vint 1)] = .ok ([], [(.vstr "a", .vstr "a", .vint 1)]) :=
  ⟨(C2_required_execute (.vstr "a") (some "a") none none [] []).1 rfl,
   (C2_required_execute (.vstr "a") (some "a") none none []
      [(.vstr "a", .vstr "a", .vint 1)]).2 (by simp)⟩

/-- C4: Reject.execute returns an empty match list unchanged; with exactly
one match it raises that match's value-rejected Invalid directly, carrying
the original key as path and the textual value as provided; with two or more
matches it raises a MultipleInvalid wrapping one such Invalid per match. -/
theorem C4_reject_execute (key : Py) (n : Option String) (ks vs : Option Compiled)
    (input : PyDict) (ms : List Match) :
    (ms = [] → (Marker.mk .reject key n ks vs).execute input ms = .ok (input, ms)) ∧
    (∀ t, ms = [t] → (Marker.mk .reject key n ks vs).execute input ms =
      .error (.single ⟨"Value rejected", none, some (pyStr t.2.2), [t.1]⟩)) ∧
    (2 ≤ ms.length → (Marker.mk .reject key n ks vs).execute input ms =
      .error (.multiple (ms.map (fun t =>
        (⟨"Value rejected", none, some (pyStr t.2.2), [t.1]⟩ : Invalid))))) := by
  refine ⟨?_, ?_, ?_⟩
  · intro h
    subst h
    rfl
  · intro t h
    subst h
    simp [Marker.execute, ifMultiple]
  · intro h
    match ms, h with
    | t1 :: t2 :: r, _ => simp [Marker.execute, ifMultiple]

/-- C4 witness at concrete inputs: empty passes through, one match raises the
single Invalid, two matches raise a MultipleInvalid with one error each. -/
theorem C4_reject_execute_witness :
    (Marker.mk .reject (.vstr "a") none none none).execute [] [] = .ok ([], []) ∧
    (Marker.mk .reject (.vstr "a") none none none).execute []
        [(.vstr "a", .vstr "a", .vint 7)] =
      .error (.single ⟨"Value rejected", none, some "7", [.vstr "a"]⟩) ∧
    (Marker.mk .reject (.vstr "a") none none none).execute []
        [(.vstr "a", .vstr "a", .vint 7), (.vstr "b", .vstr "b", .vint 8)] =
      .error (.multiple
        [⟨"Value rejected", none, some "7", [.vstr "a"]⟩,
         ⟨"Value rejected", none, some "8", [.vstr "b"]⟩]) :=
  ⟨(C4_reject_execute (.vstr "a") none none none [] []).1 rfl,
   (C4_reject_execute (.vstr "a") none none none [] [(.vstr "a", .vstr "a", .vint 7)]).2.1
      (.vstr "a", .vstr "a", .vint 7) rfl,
   (C4_reject_execute (.vstr "a") none none none []
      [(.vstr "a", .vstr "a", .vint 7), (.vstr "b", .vstr "b", .vint 8)]).2.2 (by simp)⟩

/-- C5: Extra.execute with a marker as its compiled value schema returns the
result of invoking that inner marker's execute on the same input and matches
(in particular, an inner Reject raises for any leftover key); with any other
compiled value schema it returns the matches unchanged. -/
theorem C5_extra_execute (key : Py) (n : Option String) (ks : Option Compiled)
    (input : PyDict) (ms : List Match) :
    (∀ inner : Marker,
      (Marker.mk .extra key n ks (some (.cmarker inner))).execute input ms =
        inner.execute input ms) ∧
    (∀ s : Py,
      (Marker.mk .extra key n ks (some (.cschema s))).execute input ms =
        .ok (input, ms)) ∧
    (∀ (rkey k sk v : Py) (rn : Option String) (rks rvs : Option Compiled),
      (Marker.mk .extra key n ks
          (some (.cmarker (.mk .reject rkey rn rks rvs)))).execute input [(k, sk, v)] =
        .error (.single ⟨"Value rejected", none, some (pyStr v), [k]⟩)) := by
  refine ⟨fun inner => by simp [Marker.execute], fun s => by simp [Marker.execute],
    fun rkey k sk v rn rks rvs => by simp [Marker.execute, ifMultiple]⟩

/-- C8: marker equality and hashing are determined by the wrapped key alone:
comparing a marker with a non-marker value compares the key with that value,
two markers compare by their keys only — swapping the variants and all other
fields of two markers leaves the comparison unchanged — the marker hash is
the hash of the key, and a dictionary lookup keyed by a marker with a
hashable key finds the same entry as a lookup by the raw key. -/
theorem C8_marker_key_proxy :
    (∀ (m : Marker) (k : Py), markerEq m (.base k) = pyEq m.key k) ∧
    (∀ (m m2 : Marker), markerEq m (.marker m2) = pyEq m.key m2.key) ∧
    (∀ (kd kd2 : MarkerKind) (k k2 : Py) (n n2 : Option String)
        (ks ks2 vs vs2 : Option Compiled),
      markerEq (.mk kd k n ks vs) (.marker (.mk kd2 k2 n2 ks2 vs2)) =
        markerEq (.mk kd2 k n2 ks2 vs2) (.marker (.mk kd k2 n ks vs))) ∧
    (∀ m : Marker, markerHash m = pyHash m.key) ∧
    (∀ (d : PyDict) (m : Marker), pyHashable m.key = true →
      dictGet d (.marker m) = dictGet d (.base m.key)) := by
  refine ⟨fun m k => rfl, fun m m2 => rfl, fun kd kd2 k k2 n n2 ks ks2 vs vs2 => rfl,
    fun m => rfl, fun d m h => ?_⟩
  unfold dictGet
  rw [find?_pred_congr (fun p => pyTopEq (.base p.1) (.marker m))
    (fun p => pyTopEq (.base p.1) (.base m.key)) (fun p => ?_) d]
  show markerEq m (.base p.1) = pyEq p.1 m.key
  unfold markerEq
  exact pyEq_symm_of_hashable m.key p.1 h

/-- C8 witness: looking up a concrete dictionary with an Optional marker
wrapping the key finds the same entry as looking up the raw key. -/
theorem C8_marker_key_proxy_witness :
    dictGet [(.vstr "a", .vint 1)] (.marker (.mk .optional (.vstr "a") none none none)) =
      dictGet [(.vstr "a", .vint 1)] (.base (.vstr "a")) :=
  C8_marker_key_proxy.2.2.2.2 [(.vstr "a", .vint 1)]
    (.mk .optional (.vstr "a") none none none) rfl

/-- C9: on_compiled assigns name, key_schema and value_schema only while the
field is still unset: an already-set field is never changed by a later call,
the variant and the wrapped key are never touched, and a call on a marker
whose three fields are all set returns the marker unchanged. -/
theorem C9_on_compiled_write_once (m : Marker) (n : Option String)
    (ks vs : Option Compiled) :
    ((m.name).isSome = true → (m.on_compiled n ks vs).name = m.name) ∧
    ((m.key_schema).isSome = true → (m.on_compiled n ks vs).key_schema = m.key_schema) ∧
    ((m.value_schema).isSome = true →
      (m.on_compiled n ks vs).value_schema = m.value_schema) ∧
    (m.on_compiled n ks vs).kind = m.kind ∧
    (m.on_compiled n ks vs).key = m.key ∧
    ((m.name).isSome = true → (m.key_schema).isSome = true →
      (m.value_schema).isSome = true → m.on_compiled n ks vs = m) := by
  obtain ⟨kd, key, n0, ks0, vs0⟩ := m
  cases n0 <;> cases ks0 <;> cases vs0 <;>
    simp [Marker.on_compiled, Marker.name, Marker.key_schema, Marker.value_schema,
      Marker.kind, Marker.key]

/-- C9 witness: a second compilation of a fully compiled marker changes
nothing. -/
theorem C9_on_compiled_write_once_witness :
    (Marker.mk .required (.vstr "a") (some "a") (some (.cschema (.vstr "a")))
        (some (.cschema (.vtype .tInt)))).on_compiled (some "other")
        (some (.cschema .vnone)) (some (.cschema .vnone)) =
      Marker.mk .required (.vstr "a") (some "a") (some (.cschema (.vstr "a")))
        (some (.cschema (.vtype .tInt))) :=
  (C9_on_compiled_write_once
    (Marker.mk .required (.vstr "a") (some "a") (some (.cschema (.vstr "a")))
      (some (.cschema (.vtype .tInt))))
    (some "other") (some (.cschema .vnone)) (some (.cschema .vnone))).2.2.2.2.2
    rfl rfl rfl

/-- C10: primitive_type classifies with the fixed precedence of util.py: a
value whose exact type is a literal type is LITERAL even when iterable (text
and byte strings), a type object is TYPE, a mapping is MAPPING even though it
is also iterable, the remaining iterables are ITERABLE, a remaining callable
is CALLABLE, and anything else yields none. -/
theorem C10_primitive_type_classification :
    (∀ b, primitive_type (.vbool b) = some .LITERAL) ∧
    (∀ n, primitive_type (.vint n) = some .LITERAL) ∧
    (∀ i, primitive_type (.vfloat i) = some .LITERAL) ∧
    (∀ i, primitive_type (.vcomplex i) = some .LITERAL) ∧
    (∀ s, primitive_type (.vstr s) = some .LITERAL ∧ isIterableInst (.vstr s) = true) ∧
    (∀ s, primitive_type (.vbytes s) = some .LITERAL ∧ isIterableInst (.vbytes s) = true) ∧
    primitive_type .vobject = some .LITERAL ∧
    primitive_type .vnone = some .LITERAL ∧
    (∀ t, primitive_type (.vtype t) = some .TYPE) ∧
    (∀ xs, primitive_type (.vdict xs) = some .MAPPING ∧
      isIterableInst (.vdict xs) = true) ∧
    (∀ xs, primitive_type (.vlist xs) = some .ITERABLE) ∧
    (∀ xs, primitive_type (.vtuple xs) = some .ITERABLE) ∧
    (∀ xs, primitive_type (.vset xs) = some .ITERABLE) ∧
    (∀ xs, primitive_type (.vfrozenset xs) = some .ITERABLE) ∧
    (∀ i, primitive_type (.vcallable i) = some .CALLABLE) ∧
    (∀ cls, primitive_type (.vinstance cls) = none) :=
  ⟨fun _ => rfl, fun _ => rfl, fun _ => rfl, fun _ => rfl,
   fun _ => ⟨rfl, rfl⟩, fun _ => ⟨rfl, rfl⟩, rfl, rfl,
   fun _ => rfl, fun _ => ⟨rfl, rfl⟩, fun _ => rfl, fun _ => rfl,
   fun _ => rfl, fun _ => rfl, fun _ => rfl, fun _ => rfl⟩

/-- C1: the marker processing order of the engine: Remove carries priority
1000, the default markers Required, Optional, Allow and Reject 0, Extra
-1000; literal-keyed schemas carry category priority 100, type-keyed 50 and
callable or other keyed 0; and in the sorted marker list every earlier marker
has strictly greater marker priority, or equal marker priority and at least
as great a key category priority, so every Remove precedes all
default-priority markers, Extra comes last, and equal-priority ties are
broken literal first, then type, then callable. -/
theorem C1_marker_processing_order :
    markerPriority .remove = 1000 ∧
    markerPriority .required = 0 ∧
    markerPriority .optional = 0 ∧
    markerPriority .allow = 0 ∧
    markerPriority .reject = 0 ∧
    markerPriority .extra = -1000 ∧
    compiled_type_priorities .LITERAL = some 100 ∧
    compiled_type_priorities .TYPE = some 50 ∧
    compiled_type_priorities .CALLABLE = some 0 ∧
    (∀ ms : List Marker, (sortMarkers ms).Pairwise (fun a b =>
      markerPriority a.kind > markerPriority b.kind ∨
        (markerPriority a.kind = markerPriority b.kind ∧
          markerKeyCatPriority a ≥ markerKeyCatPriority b))) := by
  refine ⟨rfl, rfl, rfl, rfl, rfl, rfl, rfl, rfl, rfl, fun ms => ?_⟩
  exact List.sorted_insertionSort markerGE ms

/-- C6: boolean and numeric schemas are mutually exclusive for literal and
type matching: the boolean True fails the literal schema 1 and the type
schema int with a type mismatch (Wrong value type, Wrong type), never a value
mismatch, and an integer never satisfies the boolean literal True or the bool
type schema, while each type accepts its own values. -/
theorem C6_bool_int_exclusion :
    validateLiteral (.vint 1) (.vbool true) =
      .error (.single ⟨"Wrong value type", some "Integer number", some "Boolean", []⟩) ∧
    validateType .tInt (.vbool true) =
      .error (.single ⟨"Wrong type", some "Integer number", some "Boolean", []⟩) ∧
    (∀ n : Int, validateLiteral (.vbool true) (.vint n) =
      .error (.single ⟨"Wrong value type", some "Boolean", some "Integer number", []⟩)) ∧
    (∀ n : Int, validateType .tBool (.vint n) =
      .error (.single ⟨"Wrong type", some "Boolean", some "Integer number", []⟩)) ∧
    (∀ b : Bool, validateType .tInt (.vbool b) =
      .error (.single ⟨"Wrong type", some "Integer number", some "Boolean", []⟩)) ∧
    (∀ (n : Int) (b : Bool), validateLiteral (.vint n) (.vbool b) =
      .error (.single ⟨"Wrong value type", some "Integer number", some "Boolean", []⟩)) ∧
    (∀ n : Int, validateType .tInt (.vint n) = .ok (.vint n)) ∧
    (∀ b : Bool, validateType .tBool (.vbool b) = .ok (.vbool b)) :=
  ⟨rfl, rfl, fun _ => rfl, fun _ => rfl, fun _ => rfl, fun _ _ => rfl,
   fun _ => rfl, fun _ => rfl⟩

/-- C7: independent child failures of one mapping level are collected and
reported together: the literal-keyed schema with a and b both mapped to int,
validated against string values for a and b, raises a MultipleInvalid of
exactly two wrong-type errors with paths a and b; and in the final
aggregation a lone collected failure surfaces as that single Invalid while
two or more surface as a MultipleInvalid listing each underlying error. -/
theorem C7_error_aggregation :
    validateMapping
        [.mk .required (.vstr "a") (some "a") none (some (.cschema (.vtype .tInt))),
         .mk .required (.vstr "b") (some "b") none (some (.cschema (.vtype .tInt)))]
        [(.vstr "a", .vstr "x"), (.vstr "b", .vstr "y")] =
      .error (.multiple
        [⟨"Wrong type", some "Integer number", some "String", [.vstr "a"]⟩,
         ⟨"Wrong type", some "Integer number", some "String", [.vstr "b"]⟩]) ∧
    (∀ e : Invalid, ifMultiple [e] = .single e) ∧
    (∀ (e e2 : Invalid) (es : List Invalid),
      ifMultiple (e :: e2 :: es) = .multiple (e :: e2 :: es)) :=
  ⟨rfl, fun _ => rfl, fun _ _ _ => rfl⟩

/-- Deletion loop of Remove.execute: when every matched key is present in the
input and no input entry key matches two different matched keys, the loop
succeeds and removes exactly the entries whose key matches some matched
key. -/
theorem removeKeys_eq : ∀ (input : PyDict) (ms : List Match),
    (∀ t ∈ ms, input.any (fun p => pyEq p.1 t.1) = true) →
    (ms.Pairwise (fun t t2 => ∀ p ∈ input,
      ¬(pyEq p.1 t.1 = true ∧ pyEq p.1 t2.1 = true))) →
    removeKeys input ms =
      .ok (input.filter (fun p => !(ms.any (fun t => pyEq p.1 t.1))))
  | input, [], _, _ => by simp [removeKeys]
  | input, (k0, sk0, v0) :: rest, hpres, hsep => by
      have hk0 : input.any (fun p => pyEq p.1 k0) = true :=
        hpres (k0, sk0, v0) (List.mem_cons_self _ _)
      have hdel : delKey input k0 = .ok (input.filter (fun p => !(pyEq p.1 k0))) := by
        simp [delKey, hk0]
      obtain ⟨hhead, htail⟩ := List.pairwise_cons.mp hsep
      have hpres2 : ∀ t ∈ rest,
          (input.filter (fun p => !(pyEq p.1 k0))).any (fun p => pyEq p.1 t.1) = true := by
        intro t ht
        obtain ⟨p, hp, hpt⟩ := List.any_eq_true.mp (hpres t (List.mem_cons_of_mem _ ht))
        refine List.any_eq_true.mpr ⟨p, List.mem_filter.mpr ⟨hp, ?_⟩, hpt⟩
        rw [Bool.not_eq_true']
        cases hc : pyEq p.1 k0
        · rfl
        · exact absurd ⟨hc, hpt⟩ (hhead t ht p hp)
      have hsep2 : rest.Pairwise (fun t t2 =>
          ∀ p ∈ input.filter (fun q => !(pyEq q.1 k0)),
            ¬(pyEq p.1 t.1 = true ∧ pyEq p.1 t2.1 = true)) := by
        refine htail.imp ?_
        intro t t2 h p hp
        exact h p (List.mem_filter.mp hp).1
      have ih := removeKeys_eq (input.filter (fun p => !(pyEq p.1 k0))) rest hpres2 hsep2
      simp only [removeKeys]
      rw [hdel]
      show removeKeys (input.filter (fun p => !(pyEq p.1 k0))) rest = _
      rw [ih]
      congr 1
      rw [List.filter_filter]
      refine List.filter_congr ?_
      intro p hp
      simp [Bool.not_or, Bool.and_comm]

/-- C3: under the engine invariant that every matched original key is present
in the live input and no input entry matches two distinct matched keys,
Remove.execute succeeds, the resulting live input is the input with exactly
the entries matching a matched key deleted, the matches are returned
unchanged, every matched key is gone from the result (and thus from what
later markers and extra-key checks see), and every entry matching no matched
key is kept. -/
theorem C3_remove_execute (key : Py) (n : Option String) (ks vs : Option Compiled)
    (input : PyDict) (ms : List Match)
    (hpres : ∀ t ∈ ms, input.any (fun p => pyEq p.1 t.1) = true)
    (hsep : ms.Pairwise (fun t t2 => ∀ p ∈ input,
      ¬(pyEq p.1 t.1 = true ∧ pyEq p.1 t2.1 = true))) :
    (Marker.mk .remove key n ks vs).execute input ms =
      .ok (input.filter (fun p => !(ms.any (fun t => pyEq p.1 t.1))), ms) ∧
    (∀ t ∈ ms, (input.filter (fun p => !(ms.any (fun t2 => pyEq p.1 t2.1)))).any
        (fun p => pyEq p.1 t.1) = false) ∧
    (∀ p ∈ input, ms.any (fun t => pyEq p.1 t.1) = false →
      p ∈ input.filter (fun p2 => !(ms.any (fun t => pyEq p2.1 t.1)))) := by
  refine ⟨?_, ?_, ?_⟩
  · simp only [Marker.execute]
    rw [removeKeys_eq input ms hpres hsep]
    rfl
  · intro t ht
    rw [List.any_eq_false]
    intro p hp
    have h2 := (List.mem_filter.mp hp).2
    rw [Bool.not_eq_true'] at h2
    exact (List.any_eq_false.mp h2) t ht
  · intro p hp h
    exact List.mem_filter.mpr ⟨hp, by simp [h]⟩

/-- C3 witness: removing the matched key a from a two-entry input keeps
exactly the other entry and returns the matches. -/
theorem C3_remove_execute_witness :
    (Marker.mk .remove (.vstr "a") none none none).execute
        [(.vstr "a", .vint 1), (.vstr "b", .vint 2)]
        [(.vstr "a", .vstr "a", .vint 1)] =
      .ok ([(.vstr "b", .vint 2)], [(.vstr "a", .vstr "a", .vint 1)]) :=
  (C3_remove_execute (.vstr "a") none none none
    [(.vstr "a", .vint 1), (.vstr "b", .vint 2)]
    [(.vstr "a", .vstr "a", .vint 1)]
    (by decide) (by decide)).1
